import Mathlib

/-! Shallow embedding of the RSD/PLY/MAT exporter (io_export_rsd.py, the
`ExportRSD.execute` method) and proofs about it.

Modelling conventions:
- Floating-point coordinates and colors are modelled as rationals.
- Each emitted line is modelled structurally (a tuple of the numbers it
  carries, or a list of integer tokens), not as a formatted string; the
  scientific-notation rendering of floats is outside the model.
- Python list indexing that can raise IndexError, and evaluation of the
  unbound names tex_table and mesh_uvs in the textured branch (NameError),
  are modelled in the Except monad with an explicit error kind.
- File paths are lists of characters; the relevant library helpers
  (str.rstrip, bpy.path.ensure_ext, bpy.path.basename) are modelled from
  their documented Python/Blender semantics.
-/

namespace RSD

/-- A 3-component vector (mathutils.Vector with fields x, y, z). -/
structure Vec3 where
  x : ℚ
  y : ℚ
  z : ℚ
deriving DecidableEq

/-- An RGBA color, as obtained from a vertex-color loop element by
color[:] (Blender vertex-color layers carry 4 channels). -/
structure Color where
  r : ℚ
  g : ℚ
  b : ℚ
  a : ℚ
deriving DecidableEq

/-- A mesh vertex: position co and per-vertex normal. -/
structure Vertex where
  co : Vec3
  normal : Vec3
deriving DecidableEq

/-- One element of mesh.loop_triangles as the code reads it: the list of
vertex indices, the face normal, the smooth flag, and the loop indices
used to address the vertex-color layer. -/
structure LoopTriangle where
  vertices : List Nat
  normal : Vec3
  use_smooth : Bool
  loops : List Nat
deriving DecidableEq

/-- The mesh snapshot the exporter reads: mesh.vertices,
mesh.loop_triangles, and the data of the active vertex-color layer when
one exists (mesh_cols in the code, None otherwise). -/
structure Mesh where
  vertices : List Vertex
  loop_triangles : List LoopTriangle
  vertex_colors : Option (List Color)
deriving DecidableEq

/-- The runtime errors the embedded code can raise: an out-of-range list
index, or evaluation of a name that was never bound. -/
inductive PyError where
  | indexError : PyError
  | nameError : PyError
deriving DecidableEq

/-- Python list indexing xs[i]: the element, or IndexError when i is out
of range. -/
def pyGetIdx (xs : List α) (i : Nat) : Except PyError α :=
  match xs[i]? with
  | some a => Except.ok a
  | none => Except.error PyError.indexError

/-- A Python list comprehension [f x for x in xs] where f may raise:
the list of results, or the first error. -/
def listMapE (f : α → Except PyError β) : List α → Except PyError (List β)
  | [] => Except.ok []
  | a :: as => do
    let b ← f a
    let bs ← listMapE f as
    pure (b :: bs)

/-- Python int() applied to an exact rational: truncation toward zero. -/
def pyint (q : ℚ) : ℤ :=
  q.num.tdiv (q.den : ℤ)

/-! PLY (geometry) emission, lines 94-138 of the source -/

/-- The vertex-index group of a face line: prefix 0 and indices
[0, 2, 1] plus a trailing 0 pad for a 3-vertex face, prefix 1 and
indices [3, 2, 0, 1] for a 4-vertex face, and nothing for any other
vertex count (neither branch of the if/elif is taken). -/
def faceVertexIndices (p : LoopTriangle) : List Nat :=
  if p.vertices.length = 3 then
    [0, p.vertices.getD 0 0, p.vertices.getD 2 0, p.vertices.getD 1 0, 0]
  else if p.vertices.length = 4 then
    [1, p.vertices.getD 3 0, p.vertices.getD 2 0, p.vertices.getD 0 0, p.vertices.getD 1 0]
  else []

/-- The normal-index group of the face line for the face at position i:
for a smooth face the same reordered vertex indices (triangle padded
with a trailing 0), for a flat face the flat-normal index
fstart + i repeated; nothing for any other vertex count. -/
def faceNormalIndices (fstart i : Nat) (p : LoopTriangle) : List Nat :=
  if p.use_smooth then
    if p.vertices.length = 3 then
      [p.vertices.getD 0 0, p.vertices.getD 2 0, p.vertices.getD 1 0, 0]
    else if p.vertices.length = 4 then
      [p.vertices.getD 3 0, p.vertices.getD 2 0, p.vertices.getD 0 0, p.vertices.getD 1 0]
    else []
  else
    let n := fstart + i
    if p.vertices.length = 3 then [n, n, n, 0]
    else if p.vertices.length = 4 then [n, n, n, n]
    else []

/-- The full token list of one face line of the polygon block: the
vertex-index group followed by the normal-index group. For a face whose
vertex count is outside 3 and 4 both groups are empty and the line
carries no tokens (only the terminating newline is written). -/
def faceLine (fstart i : Nat) (p : LoopTriangle) : List Nat :=
  faceVertexIndices p ++ faceNormalIndices fstart i p

/-- The flat-normal base offset, line 111: flatnorms_start = len(mesh.vertices). -/
def flatnorms_start (mesh : Mesh) : Nat := mesh.vertices.length

/-- The PLY file content, structurally: the header tag, the counts line,
then the vertex, smooth-normal, flat-normal and face blocks in emission
order (each block field holds its lines in the order they are written). -/
structure PlyFile where
  header : String
  counts : Nat × Nat × Nat
  vertexLines : List (ℚ × ℚ × ℚ)
  smoothNormalLines : List (ℚ × ℚ × ℚ)
  flatNormalLines : List (ℚ × ℚ × ℚ)
  faceLines : List (List Nat)
deriving DecidableEq

/-- The whole PLY emission, lines 94-138: header @PLY940102; counts line
with len(vertices), len(vertices)+len(loop_triangles),
len(loop_triangles); scaled axis-remapped positions; unscaled
axis-remapped per-vertex normals; unscaled axis-remapped per-face
normals; and one face line per loop triangle in order. -/
def writePLY (scale : ℚ) (mesh : Mesh) : PlyFile :=
  { header := "@PLY940102"
    counts := (mesh.vertices.length,
               mesh.vertices.length + mesh.loop_triangles.length,
               mesh.loop_triangles.length)
    vertexLines := mesh.vertices.map fun v =>
      (v.co.x * scale, -v.co.z * scale, v.co.y * scale)
    smoothNormalLines := mesh.vertices.map fun v =>
      (v.normal.x, -v.normal.z, v.normal.y)
    flatNormalLines := mesh.loop_triangles.map fun p =>
      (p.normal.x, -p.normal.z, p.normal.y)
    faceLines := mesh.loop_triangles.enum.map fun ip =>
      faceLine (flatnorms_start mesh) ip.1 ip.2 }

/-! MAT (shading) emission, lines 140-238 of the source -/

/-- The color scale constant of line 163: color_mul = 255.0. It is never
reassigned. -/
def color_mul : ℚ := 255

/-- The per-face textured flag of line 164: pol_textured = False. It is
never reassigned anywhere in the loop body. -/
def pol_textured : Bool := false

/-- Lines 166-177: the gouraud/flat color classification. With a color
channel, col collects the per-loop colors through the loop indices and
the face is flat (false) exactly when col[0] == col[1] and
col[1] == col[2] and col[2] == col[0]; only the first three entries are
examined. Without a color channel the face is flat. Index lookups may
raise. -/
def polGouraud (mesh_cols : Option (List Color)) (p : LoopTriangle) :
    Except PyError Bool :=
  match mesh_cols with
  | some cols => do
    let col ← listMapE (pyGetIdx cols) p.loops
    let c0 ← pyGetIdx col 0
    let c1 ← pyGetIdx col 1
    let c2 ← pyGetIdx col 2
    if c0 = c1 ∧ c1 = c2 ∧ c2 = c0 then pure false else pure true
  | none => pure false

/-- The three integer tokens written for one color: each channel times
color_mul, truncated by int(). -/
def colorTokens (c : Color) : List ℤ :=
  [pyint (c.r * color_mul), pyint (c.g * color_mul), pyint (c.b * color_mul)]

/-- Lines 216-227: the gouraud color emission. index_tab is [3, 2, 0, 1]
when the face has 4 vertices and [0, 2, 1] otherwise; for each j below
the vertex count the color col[index_tab[j]] is emitted as three scaled
truncated tokens; a 3-vertex face is padded with a trailing 0 0 0. -/
def writeGouraudColors (col : List Color) (p : LoopTriangle) :
    Except PyError (List ℤ) := do
  let index_tab : List Nat := if p.vertices.length = 4 then [3, 2, 0, 1] else [0, 2, 1]
  let groups ← listMapE
    (fun j => do
      let k ← pyGetIdx index_tab j
      let c ← pyGetIdx col k
      pure (colorTokens c))
    (List.range p.vertices.length)
  pure (groups.flatten ++ if p.vertices.length = 3 then [0, 0, 0] else [])

/-- One line of the MAT file, structurally: the leading face index, the
tone letter G or F from use_smooth (written after the constant 0 field),
the texture-class tag, the texture data tokens of the textured branch
(texture index and texel pairs; always empty in practice), and the color
tokens. -/
structure MatLine where
  index : Nat
  tone : String
  texClass : String
  texData : List ℤ
  colors : List ℤ
deriving DecidableEq

/-- Lines 213-236, the vertex-color block of one MAT line. With a color
channel the block re-reads col exactly as lines 167-168 built it (the
recomputation is pure and yields the same value); when the face is
color-gouraud it runs the reordered emission, when color-flat it emits
only the scaled col[0]; the write is guarded by exp_coloredTexPolys or
not pol_textured. Without a color channel the constant placeholder of
line 236 is emitted: the int-formatted value of color_mul three times. -/
def writeMatColors (exp_coloredTexPolys : Bool) (mesh_cols : Option (List Color))
    (pol_gouraud : Bool) (p : LoopTriangle) : Except PyError (List ℤ) :=
  match mesh_cols with
  | some cols => do
    let col ← listMapE (pyGetIdx cols) p.loops
    if exp_coloredTexPolys || !pol_textured then
      if pol_gouraud then writeGouraudColors col p
      else do
        let c ← pyGetIdx col 0
        pure (colorTokens c)
    else pure []
  | none => pure [pyint color_mul, pyint color_mul, pyint color_mul]

/-- Lines 152-238, the body of the per-face MAT loop for the face p at
position i. The textured branch (lines 180-206) evaluates the unbound
names tex_table and mesh_uvs and therefore raises NameError the moment
it is entered; it is guarded by pol_textured. In the untextured branch
the tag is G when color-gouraud and C when color-flat, and the color
block follows. -/
def writeMatLine (exp_coloredTexPolys : Bool) (mesh_cols : Option (List Color))
    (i : Nat) (p : LoopTriangle) : Except PyError MatLine := do
  let tone := if p.use_smooth then "G" else "F"
  let pol_gouraud ← polGouraud mesh_cols p
  if pol_textured then
    Except.error PyError.nameError
  else do
    let texClass := if pol_gouraud then "G" else "C"
    let colors ← writeMatColors exp_coloredTexPolys mesh_cols pol_gouraud p
    pure { index := i, tone := tone, texClass := texClass, texData := [], colors := colors }

/-- The MAT file header block, lines 143-144: the tag line @MAT940801
and the count line holding len(mesh.loop_triangles). These two lines are
written before the per-face loop runs, so they are emitted regardless of
whether a later face line raises. -/
def matHeader (mesh : Mesh) : String × Nat :=
  ("@MAT940801", mesh.loop_triangles.length)

/-- The MAT file content: header tag, face count, and the per-face lines. -/
structure MatFile where
  header : String
  count : Nat
  lines : List MatLine
deriving DecidableEq

/-- The whole MAT emission, lines 140-238: the header block followed by
one line per loop triangle, in order; the first raising face aborts. -/
def writeMAT (exp_coloredTexPolys : Bool) (mesh : Mesh) : Except PyError MatFile := do
  let lines ← listMapE
    (fun ip => writeMatLine exp_coloredTexPolys mesh.vertex_colors ip.1 ip.2)
    mesh.loop_triangles.enum
  pure { header := (matHeader mesh).1, count := (matHeader mesh).2, lines := lines }

/-! Output paths and the RSD descriptor, lines 74-78 and 240-246 -/

/-- Python str.rstrip(chars): remove the longest run of trailing
characters each of which occurs in chars. -/
def pyRstrip (chars s : List Char) : List Char :=
  (s.reverse.dropWhile (fun c => c ∈ chars)).reverse

/-- Model of bpy.path.ensure_ext (Blender 2.76 and later, the behavior
the comment at lines 65-72 works around): return the path unchanged when
it already ends with ext under case-insensitive comparison, otherwise
append ext. -/
def ensure_ext (fp ext : List Char) : List Char :=
  if (ext.map Char.toLower).isSuffixOf (fp.map Char.toLower) then fp else fp ++ ext

/-- Model of bpy.path.basename: os.path.basename (the part after the
last slash) after skipping a leading double-slash prefix. -/
def bpy_basename (p : List Char) : List Char :=
  let q := if p.take 2 = ['/', '/'] then p.drop 2 else p
  (q.reverse.takeWhile (fun c => c ≠ '/')).reverse

/-- The operator extension, filename_ext = ".rsd". -/
def filename_ext : List Char := ".rsd".toList

/-- Line 75: the chosen path with filename_ext stripped by
str.rstrip, a character-set strip, not an exact suffix removal. -/
def strippedPath (filepath : List Char) : List Char :=
  pyRstrip filename_ext filepath

/-- Line 76: rsd_filepath = ensure_ext(stripped path, ".rsd"). -/
def rsd_filepath (filepath : List Char) : List Char :=
  ensure_ext (strippedPath filepath) ".rsd".toList

/-- Line 77: ply_filepath = ensure_ext(stripped path, ".ply"). -/
def ply_filepath (filepath : List Char) : List Char :=
  ensure_ext (strippedPath filepath) ".ply".toList

/-- Line 78: mat_filepath = ensure_ext(stripped path, ".mat"). -/
def mat_filepath (filepath : List Char) : List Char :=
  ensure_ext (strippedPath filepath) ".mat".toList

/-- Lines 241-245: the four lines of the RSD descriptor file, in order:
the tag, PLY= plus the basename of the geometry path, MAT= plus the
basename of the shading path, and the constant NTEX=0. -/
def rsdFileLines (filepath : List Char) : List (List Char) :=
  ["@RSD940102".toList,
   "PLY=".toList ++ bpy_basename (ply_filepath filepath),
   "MAT=".toList ++ bpy_basename (mat_filepath filepath),
   "NTEX=0".toList]

/-- Modelled from the spec: the exact suffix removal that the spec
contrasts with the character-set strip actually performed at line 75,
missing from the source (the spec recommends reimplementing with it).
Removes ext from the end of s when s ends with ext, else returns s. -/
def exactSuffixRemoval (ext s : List Char) : List Char :=
  if ext.isSuffixOf s then s.take (s.length - ext.length) else s

/-- Everything one export run produces: the three output paths and the
content written to each of them. -/
structure ExportResult where
  ply_path : List Char
  mat_path : List Char
  rsd_path : List Char
  plyContent : PlyFile
  matContent : Except PyError MatFile
  rsdContent : List (List Char)

/-- The whole of ExportRSD.execute on an already-evaluated mesh
snapshot: derive the three paths from the chosen filepath, write the
geometry file, the shading file and the descriptor. -/
def execute (exp_coloredTexPolys : Bool) (exp_scaleFactor : ℚ)
    (filepath : List Char) (mesh : Mesh) : ExportResult :=
  { ply_path := ply_filepath filepath
    mat_path := mat_filepath filepath
    rsd_path := rsd_filepath filepath
    plyContent := writePLY exp_scaleFactor mesh
    matContent := writeMAT exp_coloredTexPolys mesh
    rsdContent := rsdFileLines filepath }

/-! Helper lemmas on the embedded error monad -/

theorem ok_bind (a : α) (f : α → Except PyError β) :
    (Except.ok a : Except PyError α) >>= f = f a := rfl

theorem error_bind (e : PyError) (f : α → Except PyError β) :
    (Except.error e : Except PyError α) >>= f = Except.error e := rfl

theorem pure_eq_ok (a : α) : (pure a : Except PyError α) = Except.ok a := rfl

theorem bind_eq_ok {x : Except PyError α} {f : α → Except PyError β} {b : β}
    (h : x >>= f = Except.ok b) : ∃ a, x = Except.ok a ∧ f a = Except.ok b := by
  cases x with
  | ok a => exact ⟨a, rfl, h⟩
  | error e => rw [error_bind] at h; exact absurd h (by simp)

/-! Theorems -/

/-- C4: for every mesh, the geometry file starts with the header line
@PLY940102 followed by the counts line carrying len(vertices),
len(vertices)+len(faces) and len(faces) in that order, and the shading
file starts with the header line @MAT940801 followed by a count line
carrying len(faces). -/
theorem file_headers (scale : ℚ) (mesh : Mesh) :
    (writePLY scale mesh).header = "@PLY940102" ∧
    (writePLY scale mesh).counts =
      (mesh.vertices.length, mesh.vertices.length + mesh.loop_triangles.length,
        mesh.loop_triangles.length) ∧
    matHeader mesh = ("@MAT940801", mesh.loop_triangles.length) :=
  ⟨rfl, rfl, rfl⟩

/-- C2: a Face whose vertex count is outside 3 and 4 contributes a face
line with no vertex-index or normal-index tokens at all, while the
header counts line still counts it: the face count equals the total
number of Faces and the face block still has one (empty) line per Face. -/
theorem malformed_face_skipped_but_counted (scale : ℚ) (mesh : Mesh) (i : Nat)
    (p : LoopTriangle) (hp : mesh.loop_triangles[i]? = some p)
    (h3 : p.vertices.length ≠ 3) (h4 : p.vertices.length ≠ 4) :
    (writePLY scale mesh).faceLines[i]? = some [] ∧
    (writePLY scale mesh).counts.2.2 = mesh.loop_triangles.length ∧
    (writePLY scale mesh).faceLines.length = mesh.loop_triangles.length := by
  refine ⟨?_, rfl, by simp [writePLY]⟩
  simp [writePLY, List.getElem?_map, List.getElem?_enum, hp, faceLine,
    faceVertexIndices, faceNormalIndices, h3, h4]

/-- A mesh holding a single malformed 5-vertex face, for the C2 witness. -/
def badFaceMesh : Mesh :=
  { vertices := [⟨⟨0, 0, 0⟩, ⟨0, 0, 1⟩⟩]
    loop_triangles := [⟨[0, 0, 0, 0, 0], ⟨0, 0, 1⟩, false, []⟩]
    vertex_colors := none }

/-- Witness for C2 at a concrete mesh with one 5-vertex face. -/
theorem malformed_face_skipped_but_counted_witness :
    (writePLY 1 badFaceMesh).faceLines[0]? = some [] ∧
    (writePLY 1 badFaceMesh).counts.2.2 = 1 ∧
    (writePLY 1 badFaceMesh).faceLines.length = 1 :=
  malformed_face_skipped_but_counted 1 badFaceMesh 0
    ⟨[0, 0, 0, 0, 0], ⟨0, 0, 1⟩, false, []⟩ rfl (by decide) (by decide)

/-- C3: the face line of a 3-vertex Face is prefix 0, the vertex indices
in order [0, 2, 1] and a trailing 0 pad; for a 4-vertex Face prefix 1
and the indices [3, 2, 0, 1]; the normal-index group that follows
repeats the same reordered vertex indices when the Face is smooth
(triangle padded with a trailing 0) and is len(vertices) + i in every
entry when flat. -/
theorem face_line_layout (scale : ℚ) (mesh : Mesh) (i : Nat) (p : LoopTriangle)
    (hp : mesh.loop_triangles[i]? = some p) :
    (p.vertices.length = 3 →
      (writePLY scale mesh).faceLines[i]? = some
        ([0, p.vertices.getD 0 0, p.vertices.getD 2 0, p.vertices.getD 1 0, 0] ++
          (if p.use_smooth then
            [p.vertices.getD 0 0, p.vertices.getD 2 0, p.vertices.getD 1 0, 0]
          else
            [mesh.vertices.length + i, mesh.vertices.length + i,
              mesh.vertices.length + i, 0]))) ∧
    (p.vertices.length = 4 →
      (writePLY scale mesh).faceLines[i]? = some
        ([1, p.vertices.getD 3 0, p.vertices.getD 2 0, p.vertices.getD 0 0,
            p.vertices.getD 1 0] ++
          (if p.use_smooth then
            [p.vertices.getD 3 0, p.vertices.getD 2 0, p.vertices.getD 0 0,
              p.vertices.getD 1 0]
          else
            [mesh.vertices.length + i, mesh.vertices.length + i,
              mesh.vertices.length + i, mesh.vertices.length + i]))) := by
  constructor <;> intro h <;>
    simp [writePLY, List.getElem?_map, List.getElem?_enum, hp, faceLine,
      faceVertexIndices, faceNormalIndices, flatnorms_start, h]

/-- A mesh holding one smooth triangle and one flat quad, for the C3 and
C5 witnesses. -/
def smallMesh : Mesh :=
  { vertices := [⟨⟨2, 3, 5⟩, ⟨0, 0, 1⟩⟩, ⟨⟨0, 0, 0⟩, ⟨1, 0, 0⟩⟩]
    loop_triangles :=
      [⟨[0, 1, 0], ⟨0, 1, 0⟩, true, [0, 1, 2]⟩,
       ⟨[1, 0, 1, 0], ⟨7, 11, 13⟩, false, [0, 1, 2, 3]⟩]
    vertex_colors := none }

/-- Witness for C3 at the concrete two-face mesh. -/
theorem face_line_layout_witness :
    (writePLY 1 smallMesh).faceLines[0]? = some
      ([0, 0, 0, 1, 0] ++ [0, 0, 1, 0]) ∧
    (writePLY 1 smallMesh).faceLines[1]? = some
      ([1, 0, 1, 1, 0] ++ [3, 3, 3, 3]) := by
  constructor
  · have h := (face_line_layout 1 smallMesh 0 ⟨[0, 1, 0], ⟨0, 1, 0⟩, true, [0, 1, 2]⟩ rfl).1 rfl
    simpa using h
  · have h := (face_line_layout 1 smallMesh 1
      ⟨[1, 0, 1, 0], ⟨7, 11, 13⟩, false, [0, 1, 2, 3]⟩ rfl).2 rfl
    simpa using h

/-- C5: with any scale factor in the accepted range, each vertex line
carries (x*scale, -z*scale, y*scale); the normal block first carries one
axis-remapped unscaled direction per vertex in vertex order, then one
per Face in Face order, and the logical base index of the flat section
is len(vertices). -/
theorem vertex_and_normal_blocks (scale : ℚ) (mesh : Mesh)
    (_hs : 1 / 100 ≤ scale ∧ scale ≤ 1000) :
    (∀ (j : Nat) (v : Vertex), mesh.vertices[j]? = some v →
      (writePLY scale mesh).vertexLines[j]? =
        some (v.co.x * scale, -v.co.z * scale, v.co.y * scale) ∧
      (writePLY scale mesh).smoothNormalLines[j]? =
        some (v.normal.x, -v.normal.z, v.normal.y)) ∧
    (∀ (i : Nat) (p : LoopTriangle), mesh.loop_triangles[i]? = some p →
      (writePLY scale mesh).flatNormalLines[i]? =
        some (p.normal.x, -p.normal.z, p.normal.y)) ∧
    (writePLY scale mesh).smoothNormalLines.length = mesh.vertices.length ∧
    flatnorms_start mesh = mesh.vertices.length := by
  refine ⟨?_, ?_, by simp [writePLY], rfl⟩
  · intro j v hv
    constructor <;> simp [writePLY, List.getElem?_map, hv]
  · intro i p hp
    simp [writePLY, List.getElem?_map, hp]

/-- Witness for C5 at the concrete two-face mesh with scale 1. -/
theorem vertex_and_normal_blocks_witness :
    (writePLY 1 smallMesh).vertexLines[0]? =
      some ((2 : ℚ) * 1, -(5 : ℚ) * 1, (3 : ℚ) * 1) ∧
    (writePLY 1 smallMesh).smoothNormalLines[0]? =
      some ((0 : ℚ), -(1 : ℚ), (0 : ℚ)) ∧
    (writePLY 1 smallMesh).flatNormalLines[1]? =
      some ((7 : ℚ), -(13 : ℚ), (11 : ℚ)) ∧
    flatnorms_start smallMesh = 2 := by
  have h := vertex_and_normal_blocks 1 smallMesh (by norm_num)
  exact ⟨(h.1 0 ⟨⟨2, 3, 5⟩, ⟨0, 0, 1⟩⟩ rfl).1,
    (h.1 0 ⟨⟨2, 3, 5⟩, ⟨0, 0, 1⟩⟩ rfl).2,
    h.2.1 1 ⟨[1, 0, 1, 0], ⟨7, 11, 13⟩, false, [0, 1, 2, 3]⟩ rfl,
    h.2.2.2⟩

/-! The shading classification and the texture branch -/

/-- An Except computation that cannot fail with a NameError. -/
def NoNameError (x : Except PyError α) : Prop :=
  x ≠ Except.error PyError.nameError

theorem NoNameError.bind {x : Except PyError α} {f : α → Except PyError β}
    (hx : NoNameError x) (hf : ∀ a, NoNameError (f a)) : NoNameError (x >>= f) := by
  cases x with
  | ok a => rw [ok_bind]; exact hf a
  | error e =>
    rw [error_bind]
    intro h
    exact hx (by rw [Except.error.inj h])

theorem noNameError_pyGetIdx (xs : List α) (i : Nat) : NoNameError (pyGetIdx xs i) := by
  unfold pyGetIdx
  cases xs[i]? <;> simp [NoNameError]

theorem noNameError_listMapE {f : α → Except PyError β}
    (hf : ∀ a, NoNameError (f a)) (l : List α) : NoNameError (listMapE f l) := by
  induction l with
  | nil => simp [listMapE, NoNameError]
  | cons a as ih =>
    exact NoNameError.bind (hf a) fun b =>
      NoNameError.bind ih fun bs => by simp [NoNameError, pure_eq_ok]

theorem noNameError_polGouraud (mesh_cols : Option (List Color)) (p : LoopTriangle) :
    NoNameError (polGouraud mesh_cols p) := by
  cases mesh_cols with
  | none => simp [polGouraud, NoNameError, pure_eq_ok]
  | some cols =>
    refine NoNameError.bind (noNameError_listMapE (fun _ => noNameError_pyGetIdx _ _) _)
      fun col => ?_
    refine NoNameError.bind (noNameError_pyGetIdx _ _) fun c0 => ?_
    refine NoNameError.bind (noNameError_pyGetIdx _ _) fun c1 => ?_
    refine NoNameError.bind (noNameError_pyGetIdx _ _) fun c2 => ?_
    split <;> simp [NoNameError, pure_eq_ok]

theorem noNameError_writeGouraudColors (col : List Color) (p : LoopTriangle) :
    NoNameError (writeGouraudColors col p) := by
  unfold writeGouraudColors
  refine NoNameError.bind ?_ fun groups => by simp [NoNameError, pure_eq_ok]
  refine noNameError_listMapE (fun j => ?_) _
  refine NoNameError.bind (noNameError_pyGetIdx _ _) fun k => ?_
  exact NoNameError.bind (noNameError_pyGetIdx _ _) fun c => by
    simp [NoNameError, pure_eq_ok]

/-- C7: every Face of every mesh is classified untextured under every
option setting (the flag of line 164 is the constant False), so the
texture-class tag of each emitted line is G or C and never T, D or H, no
texture data is ever emitted, and the NameError that evaluating the
unbound names tex_table and mesh_uvs would raise never occurs. -/
theorem texture_branch_unreachable (ctp : Bool) (mesh_cols : Option (List Color))
    (i : Nat) (p : LoopTriangle) :
    pol_textured = false ∧
    writeMatLine ctp mesh_cols i p ≠ Except.error PyError.nameError ∧
    (∀ line : MatLine, writeMatLine ctp mesh_cols i p = Except.ok line →
      (line.texClass = "G" ∨ line.texClass = "C") ∧
      line.texClass ≠ "T" ∧ line.texClass ≠ "D" ∧ line.texClass ≠ "H" ∧
      line.texData = []) := by
  have hcolors : ∀ g, NoNameError (writeMatColors ctp mesh_cols g p) := by
    intro g
    cases mesh_cols with
    | none => simp [writeMatColors, NoNameError, pure_eq_ok]
    | some cols =>
      refine NoNameError.bind (noNameError_listMapE (fun _ => noNameError_pyGetIdx _ _) _)
        fun col => ?_
      split
      · split
        · exact noNameError_writeGouraudColors _ _
        · exact NoNameError.bind (noNameError_pyGetIdx _ _) fun c => by
            simp [NoNameError, pure_eq_ok]
      · simp [NoNameError, pure_eq_ok]
  refine ⟨rfl, ?_, ?_⟩
  · show NoNameError _
    unfold writeMatLine
    refine NoNameError.bind (noNameError_polGouraud _ _) fun g => ?_
    simp only [pol_textured, Bool.false_eq_true, if_false]
    exact NoNameError.bind (hcolors g) fun colors => by simp [NoNameError, pure_eq_ok]
  · intro line hline
    unfold writeMatLine at hline
    obtain ⟨g, hg, hline⟩ := bind_eq_ok hline
    rw [if_neg (by simp [pol_textured])] at hline
    obtain ⟨colors, hcol, hline⟩ := bind_eq_ok hline
    rw [pure_eq_ok, Except.ok.injEq] at hline
    subst hline
    cases g <;> simp

/-- Witness for C7 at a concrete face, discharging the ok-result
hypothesis of the final conjunct. -/
theorem texture_branch_unreachable_witness :
    ((MatLine.mk 0 "F" "C" [] [255, 255, 255]).texClass = "G" ∨
      (MatLine.mk 0 "F" "C" [] [255, 255, 255]).texClass = "C") ∧
    (MatLine.mk 0 "F" "C" [] [255, 255, 255]).texClass ≠ "T" ∧
    (MatLine.mk 0 "F" "C" [] [255, 255, 255]).texClass ≠ "D" ∧
    (MatLine.mk 0 "F" "C" [] [255, 255, 255]).texClass ≠ "H" ∧
    (MatLine.mk 0 "F" "C" [] [255, 255, 255]).texData = [] :=
  (texture_branch_unreachable false none 0 ⟨[0, 1, 2], ⟨0, 0, 1⟩, false, [0, 1, 2]⟩).2.2
    (MatLine.mk 0 "F" "C" [] [255, 255, 255]) rfl

/-- The comparison described by the spec, for diffing against the code:
all of the per-loop colors of the Face are identical (three of them for
a triangle, four for a quad). -/
def allLoopColorsEqual (cols : List Color) (p : LoopTriangle) : Prop :=
  List.Chain' Eq (p.loops.map fun li => cols.getD li ⟨0, 0, 0, 0⟩)

/-- A quad face addressing the four loop colors 0..3, for the C1
counterexample. -/
def oddQuad : LoopTriangle := ⟨[0, 1, 2, 3], ⟨0, 0, 1⟩, false, [0, 1, 2, 3]⟩

/-- A color layer whose fourth loop color differs from the first three. -/
def oddQuadCols : List Color :=
  [⟨1, 1, 1, 1⟩, ⟨1, 1, 1, 1⟩, ⟨1, 1, 1, 1⟩, ⟨0, 0, 0, 1⟩]

/-- Counterexample to C1 as stated: on a quad whose first three per-loop
colors agree but whose fourth differs, the code still classifies the
Face flat-colored (pol_gouraud = False), although not all of its
per-loop colors are identical. -/
theorem classification_ignores_fourth_loop_color :
    polGouraud (some oddQuadCols) oddQuad = Except.ok false ∧
    ¬ allLoopColorsEqual oddQuadCols oddQuad := by
  constructor
  · rfl
  · simp [allLoopColorsEqual, oddQuadCols, oddQuad, List.chain'_cons, Color.mk.injEq]

/-- C1 amended: with a color channel present, the Face is classified
flat-colored iff its first three per-loop colors are identical — the
fourth loop color of a quad is never examined (for a triangle the first
three are all of them, so the original claim holds there); without a
color channel every Face is classified flat-colored. -/
theorem classification_first_three_colors (cols : List Color) (p : LoopTriangle)
    (col : List Color) (c0 c1 c2 : Color)
    (hcol : listMapE (pyGetIdx cols) p.loops = Except.ok col)
    (h0 : pyGetIdx col 0 = Except.ok c0)
    (h1 : pyGetIdx col 1 = Except.ok c1)
    (h2 : pyGetIdx col 2 = Except.ok c2) :
    (polGouraud (some cols) p = Except.ok false ↔ (c0 = c1 ∧ c1 = c2 ∧ c2 = c0)) ∧
    polGouraud none p = Except.ok false := by
  refine ⟨?_, rfl⟩
  simp only [polGouraud]
  rw [hcol, ok_bind, h0, ok_bind, h1, ok_bind, h2, ok_bind]
  split_ifs with h
  · exact ⟨fun _ => h, fun _ => rfl⟩
  · simp only [pure_eq_ok]
    exact ⟨fun hh => absurd hh (by simp), fun hh => absurd hh h⟩

/-- A triangle face addressing loop colors 0..2, for the C1 witness. -/
def plainTri : LoopTriangle := ⟨[0, 1, 2], ⟨0, 0, 1⟩, true, [0, 1, 2]⟩

/-- A color layer with three identical colors, for the C1 witness. -/
def plainTriCols : List Color := [⟨1, 0, 0, 1⟩, ⟨1, 0, 0, 1⟩, ⟨1, 0, 0, 1⟩]

/-- Witness for the amended C1 at a concrete uniformly colored triangle. -/
theorem classification_first_three_colors_witness :
    (polGouraud (some plainTriCols) plainTri = Except.ok false ↔
      ((⟨1, 0, 0, 1⟩ : Color) = ⟨1, 0, 0, 1⟩ ∧ (⟨1, 0, 0, 1⟩ : Color) = ⟨1, 0, 0, 1⟩ ∧
        (⟨1, 0, 0, 1⟩ : Color) = ⟨1, 0, 0, 1⟩)) ∧
    polGouraud none plainTri = Except.ok false :=
  classification_first_three_colors plainTriCols plainTri plainTriCols
    ⟨1, 0, 0, 1⟩ ⟨1, 0, 0, 1⟩ ⟨1, 0, 0, 1⟩ rfl rfl rfl rfl

/-- C6: with a color channel, a gouraud-colored quad emits the per-loop
colors reordered by [3, 2, 0, 1] and a gouraud-colored triangle by
[0, 2, 1] with a trailing 0 0 0 pad, each channel scaled by 255 and
truncated; a flat-colored Face emits only the scaled first loop color;
without a color channel the line ends with the placeholder 255 255 255. -/
theorem mat_color_emission (ctp : Bool) (i : Nat) (p : LoopTriangle) :
    (∀ (cols col : List Color) (c3 c2 c0 c1 : Color),
      listMapE (pyGetIdx cols) p.loops = Except.ok col →
      polGouraud (some cols) p = Except.ok true →
      p.vertices.length = 4 →
      col[3]? = some c3 → col[2]? = some c2 →
      col[0]? = some c0 → col[1]? = some c1 →
      writeMatLine ctp (some cols) i p = Except.ok
        ⟨i, if p.use_smooth then "G" else "F", "G", [],
          colorTokens c3 ++ colorTokens c2 ++ colorTokens c0 ++ colorTokens c1⟩) ∧
    (∀ (cols col : List Color) (c0 c1 c2 : Color),
      listMapE (pyGetIdx cols) p.loops = Except.ok col →
      polGouraud (some cols) p = Except.ok true →
      p.vertices.length = 3 →
      col[0]? = some c0 → col[2]? = some c2 →
      col[1]? = some c1 →
      writeMatLine ctp (some cols) i p = Except.ok
        ⟨i, if p.use_smooth then "G" else "F", "G", [],
          colorTokens c0 ++ colorTokens c2 ++ colorTokens c1 ++ [0, 0, 0]⟩) ∧
    (∀ (cols col : List Color) (c0 : Color),
      listMapE (pyGetIdx cols) p.loops = Except.ok col →
      polGouraud (some cols) p = Except.ok false →
      col[0]? = some c0 →
      writeMatLine ctp (some cols) i p = Except.ok
        ⟨i, if p.use_smooth then "G" else "F", "C", [], colorTokens c0⟩) ∧
    writeMatLine ctp none i p = Except.ok
      ⟨i, if p.use_smooth then "G" else "F", "C", [], [255, 255, 255]⟩ := by
  refine ⟨?_, ?_, ?_, ?_⟩
  · intro cols col c3 c2 c0 c1 hcol hg h4 hg3 hg2 hg0 hg1
    have hcolors : writeMatColors ctp (some cols) true p =
        Except.ok (colorTokens c3 ++ colorTokens c2 ++ colorTokens c0 ++ colorTokens c1) := by
      simp [writeMatColors, hcol, ok_bind, pol_textured, writeGouraudColors, h4,
        List.range_succ, listMapE, pyGetIdx, hg3, hg2, hg0, hg1, pure_eq_ok]
    simp [writeMatLine, hg, ok_bind, pol_textured, hcolors, pure_eq_ok]
  · intro cols col c0 c1 c2 hcol hg h3 hg0 hg2 hg1
    have hcolors : writeMatColors ctp (some cols) true p =
        Except.ok (colorTokens c0 ++ colorTokens c2 ++ colorTokens c1 ++ [0, 0, 0]) := by
      simp [writeMatColors, hcol, ok_bind, pol_textured, writeGouraudColors, h3,
        List.range_succ, listMapE, pyGetIdx, hg0, hg2, hg1, pure_eq_ok]
    simp [writeMatLine, hg, ok_bind, pol_textured, hcolors, pure_eq_ok]
  · intro cols col c0 hcol hg h0
    have hcolors : writeMatColors ctp (some cols) false p =
        Except.ok (colorTokens c0) := by
      simp [writeMatColors, hcol, ok_bind, pol_textured, pyGetIdx, h0, pure_eq_ok]
    simp [writeMatLine, hg, ok_bind, pol_textured, hcolors, pure_eq_ok]
  · have h255 : pyint color_mul = 255 := by norm_num [pyint, color_mul]
    simp [writeMatLine, polGouraud, writeMatColors, pol_textured, pure_eq_ok, ok_bind, h255]

/-- A quad with two distinct alternating loop colors, for the C6 witness. -/
def twoToneQuad : LoopTriangle := ⟨[0, 1, 2, 3], ⟨0, 0, 1⟩, false, [0, 1, 2, 3]⟩

/-- The alternating color layer of the C6 witness quad. -/
def twoToneCols : List Color :=
  [⟨1, 1, 1, 1⟩, ⟨0, 0, 0, 1⟩, ⟨1, 1, 1, 1⟩, ⟨0, 0, 0, 1⟩]

/-- Witness for C6 at a concrete gouraud quad and a concrete colorless
face. -/
theorem mat_color_emission_witness :
    writeMatLine false (some twoToneCols) 0 twoToneQuad = Except.ok
      ⟨0, if twoToneQuad.use_smooth then "G" else "F", "G", [],
        colorTokens ⟨0, 0, 0, 1⟩ ++ colorTokens ⟨1, 1, 1, 1⟩ ++
          colorTokens ⟨1, 1, 1, 1⟩ ++ colorTokens ⟨0, 0, 0, 1⟩⟩ ∧
    writeMatLine false none 1 plainTri = Except.ok
      ⟨1, if plainTri.use_smooth then "G" else "F", "C", [], [255, 255, 255]⟩ :=
  ⟨(mat_color_emission false 0 twoToneQuad).1 twoToneCols twoToneCols
      ⟨0, 0, 0, 1⟩ ⟨1, 1, 1, 1⟩ ⟨1, 1, 1, 1⟩ ⟨0, 0, 0, 1⟩ rfl
      (by simp [polGouraud, twoToneCols, twoToneQuad, listMapE, pyGetIdx,
        ok_bind, pure_eq_ok, Color.mk.injEq])
      rfl rfl rfl rfl rfl,
    (mat_color_emission false 1 plainTri).2.2.2⟩

/-! Path lemmas -/

theorem pyRstrip_concat_append (chars t s : List Char) (c : Char)
    (hs : ∀ x ∈ s, x ∈ chars) (hc : c ∉ chars) :
    pyRstrip chars ((t ++ [c]) ++ s) = t ++ [c] := by
  rw [pyRstrip, List.reverse_append,
    List.dropWhile_append_of_pos (fun a ha => by
      simpa using hs a (List.mem_reverse.mp ha)),
    List.reverse_append]
  simp [List.dropWhile_cons, hc]

theorem strippedPath_dir_model (dir : List Char) :
    strippedPath (dir ++ "model.rsd".toList) = dir ++ "model".toList := by
  show pyRstrip filename_ext (dir ++ ['m', 'o', 'd', 'e', 'l', '.', 'r', 's', 'd']) =
    dir ++ ['m', 'o', 'd', 'e', 'l']
  have h : dir ++ ['m', 'o', 'd', 'e', 'l', '.', 'r', 's', 'd'] =
      ((dir ++ ['m', 'o', 'd', 'e']) ++ ['l']) ++ ['.', 'r', 's', 'd'] := by simp
  rw [h]
  exact (pyRstrip_concat_append _ _ _ _ (by decide) (by decide)).trans (by simp)

theorem ensure_ext_append_of_getLast_ne (fp ext : List Char) (c d : Char)
    (hfp : (fp.map Char.toLower).getLast? = some c)
    (hext : (ext.map Char.toLower).getLast? = some d)
    (hcd : c ≠ d) :
    ensure_ext fp ext = fp ++ ext := by
  rw [ensure_ext, if_neg]
  intro hsuf
  rw [List.isSuffixOf_iff_suffix] at hsuf
  obtain ⟨t, ht⟩ := hsuf
  have hlast : (fp.map Char.toLower).getLast? = some d := by
    rw [← ht, List.getLast?_append, hext]
    rfl
  rw [hfp] at hlast
  exact hcd (Option.some.inj hlast)

theorem base_model_getLast (dir : List Char) :
    ((dir ++ "model".toList).map Char.toLower).getLast? = some 'l' := by
  rw [List.map_append, List.getLast?_append]
  rfl

theorem ply_filepath_dir_model (dir : List Char) :
    ply_filepath (dir ++ "model.rsd".toList) = dir ++ "model.ply".toList := by
  rw [ply_filepath, strippedPath_dir_model]
  rw [ensure_ext_append_of_getLast_ne _ ".ply".toList 'l' 'y' (base_model_getLast dir) rfl (by decide)]
  simp

theorem mat_filepath_dir_model (dir : List Char) :
    mat_filepath (dir ++ "model.rsd".toList) = dir ++ "model.mat".toList := by
  rw [mat_filepath, strippedPath_dir_model]
  rw [ensure_ext_append_of_getLast_ne _ ".mat".toList 'l' 't' (base_model_getLast dir) rfl (by decide)]
  simp

theorem basename_core (q m : List Char) (hm : ∀ c ∈ m, c ≠ '/')
    (hq : q = [] ∨ ∃ q', q = q' ++ ['/']) :
    ((q ++ m).reverse.takeWhile (fun c => c ≠ '/')).reverse = m := by
  rw [List.reverse_append, List.takeWhile_append_of_pos (fun a ha => by
    simpa using hm a (List.mem_reverse.mp ha))]
  rcases hq with rfl | ⟨q', rfl⟩
  · simp
  · rw [List.reverse_append]
    simp [List.takeWhile_cons]

theorem bpy_basename_of_dir (dir m : List Char)
    (hdir : dir = [] ∨ ∃ d', dir = d' ++ ['/'])
    (hm : ∀ c ∈ m, c ≠ '/') :
    bpy_basename (dir ++ m) = m := by
  unfold bpy_basename
  split_ifs with h
  · match dir with
    | [] =>
      exfalso
      rw [List.nil_append] at h
      have hmem : '/' ∈ m := List.take_subset 2 m (by rw [h]; simp)
      exact hm '/' hmem rfl
    | [a] =>
      exfalso
      have h' : a :: m.take 1 = ['/', '/'] := by simpa using h
      have ht : m.take 1 = ['/'] := (List.cons.inj h').2
      have hmem : '/' ∈ m := List.take_subset 1 m (by rw [ht]; simp)
      exact hm '/' hmem rfl
    | a :: b :: rest =>
      have hdrop : ((a :: b :: rest) ++ m).drop 2 = rest ++ m := rfl
      rw [hdrop]
      apply basename_core _ _ hm
      rcases List.eq_nil_or_concat rest with rfl | ⟨rest', e, hrest⟩
      · exact Or.inl rfl
      · rw [List.concat_eq_append] at hrest
        subst hrest
        refine Or.inr ⟨rest', ?_⟩
        rcases hdir with h0 | ⟨d', hd⟩
        · exact absurd h0 (by simp)
        · have h1 : ((a :: b :: rest') ++ [e]).getLast? = ((d' : List Char) ++ ['/']).getLast? := by
            rw [show (a :: b :: rest') ++ [e] = a :: b :: (rest' ++ [e]) by simp, ← hd]
          rw [List.getLast?_concat, List.getLast?_concat] at h1
          rw [Option.some.inj h1]
  · exact basename_core dir m hm hdir

/-- C8: for every export path consisting of any directory part (empty or
slash-terminated) and the filename model.rsd, the descriptor file is
exactly the four lines @RSD940102, PLY=model.ply, MAT=model.mat and
NTEX=0, regardless of mesh content: the PLY= and MAT= lines carry
basenames only and the NTEX line is the constant NTEX=0. -/
theorem descriptor_for_model_stem (dir : List Char)
    (hdir : dir = [] ∨ ∃ d', dir = d' ++ ['/']) :
    rsdFileLines (dir ++ "model.rsd".toList) =
      ["@RSD940102".toList, "PLY=model.ply".toList, "MAT=model.mat".toList,
        "NTEX=0".toList] := by
  unfold rsdFileLines
  rw [ply_filepath_dir_model, mat_filepath_dir_model,
    bpy_basename_of_dir dir "model.ply".toList hdir (by decide),
    bpy_basename_of_dir dir "model.mat".toList hdir (by decide)]
  rfl

/-- Witness for C8 with an empty directory part. -/
theorem descriptor_for_model_stem_witness :
    rsdFileLines "model.rsd".toList =
      ["@RSD940102".toList, "PLY=model.ply".toList, "MAT=model.mat".toList,
        "NTEX=0".toList] :=
  descriptor_for_model_stem [] (Or.inl rfl)

/-- C9: the extension is removed by character stripping, not by exact
suffix removal: on the concrete path food.rsd the stripped base is foo
while exact suffix removal gives food, so the geometry file is created
as foo.ply instead of food.ply — the output filenames are corrupted. -/
theorem rstrip_overstrips_food :
    strippedPath "food.rsd".toList = "foo".toList ∧
    exactSuffixRemoval ".rsd".toList "food.rsd".toList = "food".toList ∧
    strippedPath "food.rsd".toList ≠
      exactSuffixRemoval ".rsd".toList "food.rsd".toList ∧
    ply_filepath "food.rsd".toList = "foo.ply".toList ∧
    ply_filepath "food.rsd".toList ≠ "food.ply".toList := by
  refine ⟨by decide, by decide, by decide, by decide, by decide⟩

/-- C10: in every export run, whatever the input filepath (the
character-stripping corruption included), the basenames written on the
PLY= and MAT= descriptor lines equal the basenames of the geometry and
shading paths the same run writes to, because all three are derived from
the one stripped base path: the three files are mutually consistent. -/
theorem descriptor_matches_output_paths (ctp : Bool) (scale : ℚ)
    (filepath : List Char) (mesh : Mesh) :
    (execute ctp scale filepath mesh).rsdContent[1]? =
      some ("PLY=".toList ++ bpy_basename (execute ctp scale filepath mesh).ply_path) ∧
    (execute ctp scale filepath mesh).rsdContent[2]? =
      some ("MAT=".toList ++ bpy_basename (execute ctp scale filepath mesh).mat_path) :=
  ⟨rfl, rfl⟩

end RSD
